import Mathlib

/-!
Verification of the aviation-logbook PDF rendering engine
(src/lib/pdf-generator.js, class LogbookPDFGenerator) and its caller
(src/routes/pdf-export.js).

JS numbers that hold hour values are modelled as rationals; a field that may
be undefined in JS is an Option, and the JS idiom (x || 0) becomes
Option.getD 0.  JS string comparison with === becomes decidable equality on
String.  JS split and parseInt are modelled by structural recursion over the
character list so that every definition evaluates by kernel reduction.
-/

namespace PilotsLogbook

/-- A selected custom field definition (id, field_label) as fetched by the
pdf-export route and handed to the generator. -/
structure CustomField where
  id : Int
  field_label : String
deriving Repr, DecidableEq

/-- One flight row as selected by the pdf-export route and consumed by
LogbookPDFGenerator.  Numeric hour fields may be NULL / undefined, hence
Option.  customFieldValues models the flight.customFieldValues object, an
association of field id to value; the whole object may be absent (the JS
code reads it with the optional-chaining operator). -/
structure FlightRecord where
  date : String
  aircraft_category : String
  engine_type : String
  flight_time_hours : Option ℚ
  day_dual : Option ℚ
  day_pic : Option ℚ
  night_dual : Option ℚ
  night_pic : Option ℚ
  day_sic : Option ℚ
  night_sic : Option ℚ
  day_cmnd_practice : Option ℚ
  night_cmnd_practice : Option ℚ
  instrument_hours : Option ℚ
  simulated_instrument_hours : Option ℚ
  ground_instrument_hours : Option ℚ
  customFieldValues : Option (List (Int × ℚ))
deriving Repr, DecidableEq

/-- The JS idiom (x || 0) on a possibly-undefined numeric value. -/
def orZero (x : Option ℚ) : ℚ := x.getD 0

/-- flight.customFieldValues?.[fieldId] || 0 from calculateTotals and
drawPageB: absent object, absent key, and a stored 0 all give 0. -/
def customValue (f : FlightRecord) (fieldId : Int) : ℚ :=
  match f.customFieldValues with
  | none => 0
  | some m =>
    match m.find? (fun p => p.1 == fieldId) with
    | none => 0
    | some p => p.2

/-- The running-totals object built by initializeTotals.  The per-custom-field
sums (JS keys custom_id, one per selected field) are modelled as a total
function from field id: the JS object initializes each selected id to 0 and
every read of that object is either one of those ids or guarded by || 0, so
the all-zero default is observationally identical. -/
structure CategoryTotals where
  se_day_dual : ℚ
  se_day_pic : ℚ
  se_night_dual : ℚ
  se_night_pic : ℚ
  me_day_dual : ℚ
  me_day_pic : ℚ
  me_day_copilot : ℚ
  me_day_cmnd : ℚ
  me_night_dual : ℚ
  me_night_pic : ℚ
  me_night_copilot : ℚ
  me_night_cmnd : ℚ
  instrument_actual : ℚ
  instrument_simulated : ℚ
  instrument_ground : ℚ
  helicopter_total : ℚ
  aeroplane_total : ℚ
  simulator_total : ℚ
  grand_total : ℚ
  custom : Int → ℚ

/-- initializeTotals: every bucket starts at 0. -/
def initializeTotals : CategoryTotals where
  se_day_dual := 0
  se_day_pic := 0
  se_night_dual := 0
  se_night_pic := 0
  me_day_dual := 0
  me_day_pic := 0
  me_day_copilot := 0
  me_day_cmnd := 0
  me_night_dual := 0
  me_night_pic := 0
  me_night_copilot := 0
  me_night_cmnd := 0
  instrument_actual := 0
  instrument_simulated := 0
  instrument_ground := 0
  helicopter_total := 0
  aeroplane_total := 0
  simulator_total := 0
  grand_total := 0
  custom := fun _ => 0

/-- The body of the flights.forEach loop inside calculateTotals: fold one
flight into the running totals.  A bucket that the JS code does not touch for
this flight keeps its value, which is written here as adding 0. -/
def addFlight (customFields : List CustomField) (totals : CategoryTotals)
    (flight : FlightRecord) : CategoryTotals :=
  let isSingleEngine := flight.engine_type = "Single Engine"
  let isMultiEngine := flight.engine_type = "Multi Engine"
  { se_day_dual := totals.se_day_dual +
      (if isSingleEngine then orZero flight.day_dual else 0)
    se_day_pic := totals.se_day_pic +
      (if isSingleEngine then orZero flight.day_pic else 0)
    se_night_dual := totals.se_night_dual +
      (if isSingleEngine then orZero flight.night_dual else 0)
    se_night_pic := totals.se_night_pic +
      (if isSingleEngine then orZero flight.night_pic else 0)
    me_day_dual := totals.me_day_dual +
      (if isMultiEngine then orZero flight.day_dual else 0)
    me_day_pic := totals.me_day_pic +
      (if isMultiEngine then orZero flight.day_pic else 0)
    me_day_copilot := totals.me_day_copilot +
      (if isMultiEngine then orZero flight.day_sic else 0)
    me_day_cmnd := totals.me_day_cmnd +
      (if isMultiEngine then orZero flight.day_cmnd_practice else 0)
    me_night_dual := totals.me_night_dual +
      (if isMultiEngine then orZero flight.night_dual else 0)
    me_night_pic := totals.me_night_pic +
      (if isMultiEngine then orZero flight.night_pic else 0)
    me_night_copilot := totals.me_night_copilot +
      (if isMultiEngine then orZero flight.night_sic else 0)
    me_night_cmnd := totals.me_night_cmnd +
      (if isMultiEngine then orZero flight.night_cmnd_practice else 0)
    instrument_actual := totals.instrument_actual + orZero flight.instrument_hours
    instrument_simulated :=
      totals.instrument_simulated + orZero flight.simulated_instrument_hours
    instrument_ground :=
      totals.instrument_ground + orZero flight.ground_instrument_hours
    helicopter_total := totals.helicopter_total +
      (if flight.aircraft_category = "Helicopter" then orZero flight.flight_time_hours else 0)
    aeroplane_total := totals.aeroplane_total +
      (if flight.aircraft_category = "Aeroplane" then orZero flight.flight_time_hours else 0)
    simulator_total := totals.simulator_total +
      (if flight.aircraft_category = "Simulator" then orZero flight.flight_time_hours else 0)
    grand_total := totals.grand_total +
      (if flight.aircraft_category ≠ "Simulator" then orZero flight.flight_time_hours else 0)
    custom := customFields.foldl
      (fun c cf => Function.update c cf.id (c cf.id + customValue flight cf.id))
      totals.custom }

/-- calculateTotals(flights, previousTotals): spread the previous totals into
a fresh object and fold every flight in order. -/
def calculateTotals (flights : List FlightRecord) (previousTotals : CategoryTotals)
    (customFields : List CustomField) : CategoryTotals :=
  flights.foldl (addFlight customFields) previousTotals

/-- The constructor line this.customFields = options.customFields || []. -/
def constructorCustomFields (optionsCustomFields : Option (List CustomField)) :
    List CustomField :=
  optionsCustomFields.getD []

/-- rowsPerSpread: options.rowsPerSpread || 24, at its default 24. -/
def rowsPerSpread : Nat := 24

/-- totalSpreads = Math.ceil(flights.length / rowsPerSpread). -/
def totalSpreads (flights : List FlightRecord) : Nat :=
  (flights.length + rowsPerSpread - 1) / rowsPerSpread

/-- Helper for JS String.prototype.split with a one-character separator,
working down the character list (acc holds the current chunk reversed). -/
def splitChars (sep : Char) : List Char → List Char → List (List Char)
  | [], acc => [acc.reverse]
  | c :: rest, acc =>
    if c = sep then acc.reverse :: splitChars sep rest []
    else splitChars sep rest (c :: acc)

/-- JS s.split(sep) for a one-character separator. -/
def jsSplit (s : String) (sep : Char) : List String :=
  (splitChars sep s.data []).map String.mk

/-- Leading decimal digits of a character list; none when the first character
is not a digit (the NaN outcome of JS parseInt). -/
def parseDigits (cs : List Char) : Option Nat :=
  let digits := cs.takeWhile Char.isDigit
  if digits.isEmpty then none
  else some (digits.foldl (fun acc c => acc * 10 + (c.toNat - 48)) 0)

/-- JS parseInt(s) as used on month numbers and field ids: skip leading
whitespace, an optional sign, then the maximal run of decimal digits;
none models the NaN result. -/
def parseIntJS (s : String) : Option Int :=
  match s.data.dropWhile Char.isWhitespace with
  | '-' :: rest => (parseDigits rest).map (fun n => -(n : Int))
  | '+' :: rest => (parseDigits rest).map (fun n => (n : Int))
  | cs => (parseDigits cs).map (fun n => (n : Int))

/-- The months array of formatDate. -/
def months : List String :=
  ["Jan", "Feb", "Mar", "Apr", "May", "Jun", "Jul", "Aug", "Sep", "Oct", "Nov", "Dec"]

/-- JS template interpolation of a possibly-undefined string value: undefined
prints as the literal text undefined. -/
def jsTemplate (x : Option String) : String := x.getD "undefined"

/-- formatDate(dateString): empty (falsy) input returns the empty string;
otherwise split on the dash, destructure into year, month, day, and build
months[parseInt(month) - 1] followed by a dash and the day part.  An index
that is NaN, negative, or past the end of the months array reads as
undefined, which the template renders as the text undefined. -/
def formatDate (dateString : String) : String :=
  if dateString = "" then ""
  else
    let parts := jsSplit dateString '-'
    let month := parts.get? 1
    let day := parts.get? 2
    let monthName : Option String :=
      match month with
      | none => none
      | some m =>
        match parseIntJS m with
        | none => none
        | some monthNum =>
          if 1 ≤ monthNum then months.get? (monthNum - 1).toNat else none
    jsTemplate monthName ++ "-" ++ jsTemplate day

/-- getYear(dateString): empty (falsy) input returns the empty string,
otherwise the part before the first dash. -/
def getYear (dateString : String) : String :=
  if dateString = "" then ""
  else ((jsSplit dateString '-').head?).getD ""

/-- JS Number.prototype.toFixed(1): one decimal digit, rounding the magnitude
to the nearest tenth with ties away from zero, minus sign in front of a
negative value. -/
def toFixed1 (q : ℚ) : String :=
  let n : Nat := (Int.floor (10 * |q| + 1 / 2)).toNat
  (if q < 0 then "-" else "") ++ toString (n / 10) ++ "." ++ toString (n % 10)

/-- formatHours (the footer formatter): a missing or zero value renders as
0.0, anything else with one decimal place. -/
def formatHours (hours : Option ℚ) : String :=
  match hours with
  | none => "0.0"
  | some q => if q = 0 then "0.0" else toFixed1 q

/-- formatHoursCell (the data-cell formatter): a missing or zero value
renders as the empty string, anything else with one decimal place. -/
def formatHoursCell (hours : Option ℚ) : String :=
  match hours with
  | none => ""
  | some q => if q = 0 then "" else toFixed1 q

/-- One spread as driven by the generate loop: the slice of flights given to
this spread, the year taken from its first flight, the 1-based page number,
and the running totals passed as broughtForward to both drawPageA and
drawPageB for this spread. -/
structure SpreadRender where
  spreadFlights : List FlightRecord
  year : String
  pageNum : Nat
  broughtForward : CategoryTotals

/-- The body of the for loop in generate, recursing on the number of spreads
still to draw.  spreadFlights = flights.slice(start, start + rowsPerSpread);
after drawing both pages with the current runningTotals, the next iteration
receives calculateTotals(spreadFlights, runningTotals). -/
def generateLoop (customFields : List CustomField) (flights : List FlightRecord) :
    Nat → Nat → CategoryTotals → List SpreadRender
  | _, 0, _ => []
  | spreadIndex, remaining + 1, runningTotals =>
    let spreadFlights := (flights.drop (spreadIndex * rowsPerSpread)).take rowsPerSpread
    { spreadFlights := spreadFlights
      year := getYear (((spreadFlights.head?).map FlightRecord.date).getD "")
      pageNum := spreadIndex + 1
      broughtForward := runningTotals } ::
      generateLoop customFields flights (spreadIndex + 1) remaining
        (calculateTotals spreadFlights runningTotals customFields)

/-- generate(flights): an empty list produces only the placeholder page (no
spreads); otherwise iterate totalSpreads spreads starting from the all-zero
initializeTotals. -/
def generate (flights : List FlightRecord) (customFields : List CustomField) :
    List SpreadRender :=
  if flights.length = 0 then []
  else generateLoop customFields flights 0 (totalSpreads flights) initializeTotals

/-- drawPageB column count: numFixedCols = 15 fixed numeric columns plus one
column per selected custom field. -/
def numFixedCols : Nat := 15

/-- totalCols = numFixedCols + this.customFields.length in drawPageB. -/
def pageBTotalCols (customFields : List CustomField) : Nat :=
  numFixedCols + customFields.length

/-- The four footer figures of drawPageA, in drawing order (Aeroplane,
Helicopter, Simulator, Grand Total), each rendered with formatHours. -/
def pageAFooterTexts (t : CategoryTotals) : List String :=
  [formatHours (some t.aeroplane_total), formatHours (some t.helicopter_total),
   formatHours (some t.simulator_total), formatHours (some t.grand_total)]

/-- The totalValues array of the drawPageB footer: the 15 fixed cumulative
sums followed by one value per selected custom field (read with || 0, which
the total-function model of custom makes the plain read). -/
def pageBFooterValues (customFields : List CustomField) (t : CategoryTotals) : List ℚ :=
  [t.se_day_dual, t.se_day_pic, t.se_night_dual, t.se_night_pic,
   t.me_day_dual, t.me_day_pic, t.me_day_copilot, t.me_day_cmnd,
   t.me_night_dual, t.me_night_pic, t.me_night_copilot, t.me_night_cmnd,
   t.instrument_actual, t.instrument_simulated, t.instrument_ground] ++
  customFields.map (fun cf => t.custom cf.id)

/-- The bold cumulative-totals row drawn at the foot of Page B: every value
of totalValues rendered with formatHoursCell. -/
def pageBFooterTotalsRow (customFields : List CustomField) (t : CategoryTotals) :
    List String :=
  (pageBFooterValues customFields t).map (fun v => formatHoursCell (some v))

/-- The cumulative totals computed inside drawPageA before its footer:
calculateTotals(flights, broughtForward). -/
def pageACumulativeTotals (flights : List FlightRecord) (broughtForward : CategoryTotals)
    (customFields : List CustomField) : CategoryTotals :=
  calculateTotals flights broughtForward customFields

/-- The cumulative totals computed independently inside drawPageB before its
footer: calculateTotals(flights, broughtForward). -/
def pageBCumulativeTotals (flights : List FlightRecord) (broughtForward : CategoryTotals)
    (customFields : List CustomField) : CategoryTotals :=
  calculateTotals flights broughtForward customFields

/-- The field-id parsing of the pdf-export route:
req.query.fields.split(",").map(parseInt).filter(not NaN).slice(0, 3),
or the empty list when the query parameter is absent. -/
def routeFieldIds (fields : Option String) : List Int :=
  match fields with
  | none => []
  | some s => ((((jsSplit s ',').map parseIntJS).filterMap id).take 3)

/-- The multi-engine hour buckets of a totals snapshot, as a tuple-like list
for stating that none of them moved. -/
def meBuckets (t : CategoryTotals) : List ℚ :=
  [t.me_day_dual, t.me_day_pic, t.me_day_copilot, t.me_day_cmnd,
   t.me_night_dual, t.me_night_pic, t.me_night_copilot, t.me_night_cmnd]

/-- The single-engine hour buckets of a totals snapshot. -/
def seBuckets (t : CategoryTotals) : List ℚ :=
  [t.se_day_dual, t.se_day_pic, t.se_night_dual, t.se_night_pic]

/-- A concrete single-engine aeroplane flight used to instantiate theorems. -/
def sampleFlight : FlightRecord where
  date := "2024-01-05"
  aircraft_category := "Aeroplane"
  engine_type := "Single Engine"
  flight_time_hours := some 1
  day_dual := some 1
  day_pic := none
  night_dual := none
  night_pic := none
  day_sic := none
  night_sic := none
  day_cmnd_practice := none
  night_cmnd_practice := none
  instrument_hours := none
  simulated_instrument_hours := none
  ground_instrument_hours := none
  customFieldValues := none

/-- A concrete multi-engine helicopter flight used to instantiate theorems. -/
def sampleMultiFlight : FlightRecord where
  date := "2024-02-10"
  aircraft_category := "Helicopter"
  engine_type := "Multi Engine"
  flight_time_hours := some 2
  day_dual := none
  day_pic := some 2
  night_dual := none
  night_pic := none
  day_sic := none
  night_sic := none
  day_cmnd_practice := none
  night_cmnd_practice := none
  instrument_hours := some 1
  simulated_instrument_hours := none
  ground_instrument_hours := none
  customFieldValues := none

/-- A flight whose aircraft_category is none of Helicopter, Aeroplane or
Simulator; the database column is free text with no CHECK constraint, so
such a row can reach the generator. -/
def gliderFlight : FlightRecord where
  date := "2024-03-01"
  aircraft_category := "Glider"
  engine_type := "Single Engine"
  flight_time_hours := some 1
  day_dual := none
  day_pic := none
  night_dual := none
  night_pic := none
  day_sic := none
  night_sic := none
  day_cmnd_practice := none
  night_cmnd_practice := none
  instrument_hours := none
  simulated_instrument_hours := none
  ground_instrument_hours := none
  customFieldValues := none

/-- Four concrete custom field definitions, one more than the documented cap. -/
def cfA : CustomField := ⟨1, "A"⟩

def cfB : CustomField := ⟨2, "B"⟩

def cfC : CustomField := ⟨3, "C"⟩

def cfD : CustomField := ⟨4, "D"⟩

def fourFields : List CustomField := [cfA, cfB, cfC, cfD]

/-- A flight carrying values for all four custom fields. -/
def flightWithFour : FlightRecord where
  date := "2024-04-01"
  aircraft_category := "Aeroplane"
  engine_type := "Single Engine"
  flight_time_hours := some 1
  day_dual := none
  day_pic := none
  night_dual := none
  night_pic := none
  day_sic := none
  night_sic := none
  day_cmnd_practice := none
  night_cmnd_practice := none
  instrument_hours := none
  simulated_instrument_hours := none
  ground_instrument_hours := none
  customFieldValues := some [(1, 1), (2, 1), (3, 1), (4, 5)]

/-! ## Helper lemmas -/

theorem calculateTotals_nil (t : CategoryTotals) (cfs : List CustomField) :
    calculateTotals [] t cfs = t := rfl

theorem calculateTotals_append (a b : List FlightRecord) (t : CategoryTotals)
    (cfs : List CustomField) :
    calculateTotals (a ++ b) t cfs = calculateTotals b (calculateTotals a t cfs) cfs := by
  simp [calculateTotals, List.foldl_append]

theorem grand_total_addFlight (cfs : List CustomField) (t : CategoryTotals)
    (f : FlightRecord) :
    (addFlight cfs t f).grand_total =
      t.grand_total +
        (if f.aircraft_category ≠ "Simulator" then orZero f.flight_time_hours else 0) := rfl

theorem natRepr_length_of_lt_ten (d : Nat) (hd : d < 10) : (toString d).length = 1 := by
  interval_cases d <;> rfl

theorem toFixed1_ne_empty (q : ℚ) : toFixed1 q ≠ "" := by
  intro h
  have hlen := congrArg String.length h
  rw [toFixed1] at hlen
  rw [String.length_append, String.length_append, String.length_append] at hlen
  have hdot : String.length "." = 1 := rfl
  have hnil : String.length "" = 0 := rfl
  rw [hdot, hnil] at hlen
  omega

/-! ## Claim theorems -/

/-- Claim C10: for every flight slice, brought-forward snapshot and custom
field selection, the cumulative totals computed inside the drawPageA footer
and the cumulative totals computed independently inside the drawPageB footer
are identical: both call sites invoke the same pure calculateTotals on the
same arguments. -/
theorem pageA_pageB_cumulative_totals_eq (flights : List FlightRecord)
    (broughtForward : CategoryTotals) (customFields : List CustomField) :
    pageACumulativeTotals flights broughtForward customFields =
      pageBCumulativeTotals flights broughtForward customFields := rfl

/-- Claim C8: for a missing, undefined or zero input, formatHoursCell returns
the empty string and formatHours (the footer formatter) returns 0.0; for
every nonzero input both return the toFixed1 rendering, which always has the
shape of an optional minus sign, an integer part, a decimal point, and
exactly one digit. -/
theorem formatters_zero_suppression :
    formatHours none = "0.0" ∧ formatHoursCell none = "" ∧
    formatHours (some 0) = "0.0" ∧ formatHoursCell (some 0) = "" ∧
    ∀ q : ℚ, q ≠ 0 →
      formatHours (some q) = toFixed1 q ∧ formatHoursCell (some q) = toFixed1 q ∧
      ∃ (sign : String) (intPart d : Nat),
        (sign = "" ∨ sign = "-") ∧ d < 10 ∧ (toString d).length = 1 ∧
        toFixed1 q = sign ++ toString intPart ++ "." ++ toString d := by
  refine ⟨rfl, rfl, rfl, rfl, fun q hq => ⟨?_, ?_, ?_⟩⟩
  · simp [formatHours, hq]
  · simp [formatHoursCell, hq]
  · refine ⟨if q < 0 then "-" else "",
      (Int.floor (10 * |q| + 1 / 2)).toNat / 10,
      (Int.floor (10 * |q| + 1 / 2)).toNat % 10, ?_, ?_, ?_, rfl⟩
    · rcases lt_or_ge q 0 with h | h <;> simp [h, not_lt.mpr]
    · exact Nat.mod_lt _ (by norm_num)
    · exact natRepr_length_of_lt_ten _ (Nat.mod_lt _ (by norm_num))

/-- Witness for C8 at the concrete nonzero input one half. -/
theorem formatters_zero_suppression_witness :
    formatHours (some (1 / 2 : ℚ)) = toFixed1 (1 / 2 : ℚ) :=
  (formatters_zero_suppression.2.2.2.2 (1 / 2) (by norm_num)).1

/-- Claim C4 is a code bug: the invariant grand_total =
helicopter_total + aeroplane_total holds of the all-zero initial totals, but
a flight whose aircraft_category is outside the three known values (here
Glider, reachable because the column is unconstrained text) is added to
grand_total by the not-Simulator branch while reaching neither the
helicopter nor the aeroplane bucket, contradicting the inline comments
stating grand_total = helicopter + aeroplane. -/
theorem grand_total_invariant_broken :
    initializeTotals.grand_total =
      initializeTotals.helicopter_total + initializeTotals.aeroplane_total ∧
    (calculateTotals [gliderFlight] initializeTotals []).grand_total = 1 ∧
    (calculateTotals [gliderFlight] initializeTotals []).helicopter_total = 0 ∧
    (calculateTotals [gliderFlight] initializeTotals []).aeroplane_total = 0 ∧
    (calculateTotals [gliderFlight] initializeTotals []).grand_total ≠
      (calculateTotals [gliderFlight] initializeTotals []).helicopter_total +
        (calculateTotals [gliderFlight] initializeTotals []).aeroplane_total := by
  have h1 : ("Glider" : String) ≠ "Simulator" := by decide
  have h2 : ("Glider" : String) ≠ "Helicopter" := by decide
  have h3 : ("Glider" : String) ≠ "Aeroplane" := by decide
  refine ⟨by norm_num [initializeTotals], ?_, ?_, ?_, ?_⟩ <;>
    simp [calculateTotals, addFlight, initializeTotals, gliderFlight, orZero, h1, h2, h3]

/-- Claim C5: starting from the all-zero totals, the final grand_total equals
the sum of flight_time_hours (missing values read as 0) over exactly those
flights whose aircraft_category is not Simulator. -/
theorem grand_total_is_non_simulator_sum (flights : List FlightRecord)
    (customFields : List CustomField) :
    (calculateTotals flights initializeTotals customFields).grand_total =
      ((flights.filter (fun f => f.aircraft_category != "Simulator")).map
        (fun f => orZero f.flight_time_hours)).sum := by
  have key : ∀ (l : List FlightRecord) (t : CategoryTotals),
      (calculateTotals l t customFields).grand_total =
        t.grand_total +
          ((l.filter (fun f => f.aircraft_category != "Simulator")).map
            (fun f => orZero f.flight_time_hours)).sum := by
    intro l
    induction l with
    | nil => intro t; simp [calculateTotals]
    | cons f rest ih =>
      intro t
      simp only [calculateTotals, List.foldl_cons] at ih ⊢
      rw [ih (addFlight customFields t f), grand_total_addFlight]
      by_cases hf : f.aircraft_category = "Simulator"
      · simp [List.filter_cons, hf]
      · simp [List.filter_cons, hf]
        ring
  rw [key flights initializeTotals]
  simp [initializeTotals]

/-- Claim C3: the accumulation step adds no hour field of a single-engine
flight to any multi-engine bucket and no hour field of a multi-engine flight
to any single-engine bucket, and no flight can satisfy both engine_type
tests at once, so no hour value is counted in both groups. -/
theorem engine_buckets_exclusive (customFields : List CustomField)
    (t : CategoryTotals) (f : FlightRecord) :
    (f.engine_type = "Single Engine" →
      meBuckets (addFlight customFields t f) = meBuckets t) ∧
    (f.engine_type = "Multi Engine" →
      seBuckets (addFlight customFields t f) = seBuckets t) ∧
    ¬(f.engine_type = "Single Engine" ∧ f.engine_type = "Multi Engine") := by
  refine ⟨?_, ?_, ?_⟩
  · intro h
    have hne : ¬f.engine_type = "Multi Engine" := by rw [h]; decide
    simp [addFlight, meBuckets, hne]
  · intro h
    have hne : ¬f.engine_type = "Single Engine" := by rw [h]; decide
    simp [addFlight, seBuckets, hne]
  · rintro ⟨h1, h2⟩
    rw [h1] at h2
    exact absurd h2 (by decide)

/-- Witness for C3 at a concrete single-engine and a concrete multi-engine
flight. -/
theorem engine_buckets_exclusive_witness :
    meBuckets (addFlight [] initializeTotals sampleFlight) = meBuckets initializeTotals ∧
    seBuckets (addFlight [] initializeTotals sampleMultiFlight) = seBuckets initializeTotals :=
  ⟨(engine_buckets_exclusive [] initializeTotals sampleFlight).1 rfl,
   (engine_buckets_exclusive [] initializeTotals sampleMultiFlight).2.1 rfl⟩

/-- Counterexample to claim C7 as stated: the bold cumulative-totals row at
the foot of Page B is rendered with formatHoursCell, so an accumulated value
of zero there renders as the empty string, not as 0.0. -/
theorem pageB_footer_renders_zero_blank :
    (pageBFooterTotalsRow [] initializeTotals).get? 0 = some "" ∧
    ("" : String) ≠ "0.0" := by
  exact ⟨rfl, by decide⟩

/-- Claim C7 amended: Page A footer figures (drawn with formatHours) are
never blank and render 0.0 at the all-zero totals, while the Page B
cumulative-totals row (drawn with formatHoursCell) renders every zero value
as blank: at the all-zero totals it is one empty string per column. -/
theorem footer_zero_rendering (t : CategoryTotals) (cfs : List CustomField)
    (s : String) (hs : s ∈ pageAFooterTexts t) :
    s ≠ "" ∧
    pageAFooterTexts initializeTotals = ["0.0", "0.0", "0.0", "0.0"] ∧
    pageBFooterTotalsRow cfs initializeTotals = List.replicate (pageBTotalCols cfs) "" := by
  refine ⟨?_, rfl, ?_⟩
  · have hne : ∀ o : Option ℚ, formatHours o ≠ "" := by
      intro o
      match o with
      | none => decide
      | some q =>
        by_cases hq : q = 0
        · simp [formatHours, hq]
        · simp only [formatHours, if_neg hq]
          exact toFixed1_ne_empty q
    simp only [pageAFooterTexts, List.mem_cons, List.not_mem_nil, or_false] at hs
    rcases hs with h | h | h | h <;> (subst h; exact hne _)
  · rw [pageBFooterTotalsRow, pageBFooterValues, List.map_append, List.map_map]
    have h0 : ((fun v : ℚ => formatHoursCell (some v)) ∘
        fun cf : CustomField => initializeTotals.custom cf.id) = fun _ => "" := by
      funext cf; rfl
    rw [h0, List.map_const']
    rw [show pageBTotalCols cfs = 15 + cfs.length from rfl, List.replicate_add]
    congr 1

/-- Witness for C7 amended at the all-zero totals with no custom fields. -/
theorem footer_zero_rendering_witness :
    ("0.0" : String) ≠ "" ∧
    pageAFooterTexts initializeTotals = ["0.0", "0.0", "0.0", "0.0"] ∧
    pageBFooterTotalsRow [] initializeTotals = List.replicate (pageBTotalCols []) "" :=
  footer_zero_rendering initializeTotals [] "0.0" (by decide)

/-- Counterexample to claim C9 as stated: a nonempty input with no parseable
year, month or day does not yield the empty string; the template renders the
failed lookups as the text undefined. -/
theorem formatDate_unparseable_not_empty :
    formatDate "garbage" = "undefined-undefined" ∧ formatDate "garbage" ≠ "" := by
  refine ⟨rfl, ?_⟩
  rw [show formatDate "garbage" = "undefined-undefined" from rfl]
  decide

/-- Claim C9 amended: a well-formed date string (three dash-separated parts
whose month part parses to a number between 1 and 12) renders as the month
abbreviation, a dash, and the day part, and an empty (falsy) input yields
the empty string; but a nonempty unparseable input yields text containing
undefined rather than the empty string. -/
theorem formatDate_well_formed (s y m d : String) (i : Int)
    (hne : s ≠ "") (hsplit : jsSplit s '-' = [y, m, d])
    (hparse : parseIntJS m = some i) (h1 : 1 ≤ i) (h12 : i ≤ 12) :
    (∃ name, months.get? (i - 1).toNat = some name ∧
      formatDate s = name ++ "-" ++ d) ∧
    formatDate "" = "" := by
  refine ⟨?_, rfl⟩
  have hidx : (i - 1).toNat < months.length := by
    have h12len : months.length = 12 := rfl
    omega
  refine ⟨months.get ⟨(i - 1).toNat, hidx⟩, List.get?_eq_get hidx, ?_⟩
  rw [formatDate, if_neg hne]
  simp only [hsplit, List.get?_cons_succ, List.get?_cons_zero, hparse, if_pos h1,
    List.get?_eq_get hidx, jsTemplate, Option.getD_some]

/-- Witness for C9 amended at the date 2024-01-05. -/
theorem formatDate_well_formed_witness :
    (∃ name, months.get? ((1 : Int) - 1).toNat = some name ∧
      formatDate "2024-01-05" = name ++ "-" ++ "05") ∧
    formatDate "" = "" :=
  formatDate_well_formed "2024-01-05" "2024" "01" "05" 1
    (by decide) rfl rfl (by decide) (by decide)

/-- Counterexample to claim C6 as stated: given four custom fields the
engine keeps all four, not the first three; Page B lays out 19 columns,
above the claimed at most 18, and the accumulated totals carry a running
sum for the fourth field. -/
theorem custom_fields_not_truncated :
    constructorCustomFields (some fourFields) = fourFields ∧
    fourFields.length = 4 ∧
    pageBTotalCols (constructorCustomFields (some fourFields)) = 19 ∧
    ¬pageBTotalCols (constructorCustomFields (some fourFields)) ≤ numFixedCols + 3 ∧
    (calculateTotals [flightWithFour] initializeTotals fourFields).custom 4 = 5 := by
  refine ⟨rfl, rfl, rfl, by decide, ?_⟩
  simp [calculateTotals, addFlight, initializeTotals, flightWithFour, fourFields,
    cfA, cfB, cfC, cfD, customValue, Function.update]

/-- Claim C6 amended: the engine itself applies no cap (with n custom fields
it carries n running sums and lays out 15 + n columns); the at-most-3 cap is
enforced upstream by the pdf-export route, which takes only the first three
parsed field ids, so whenever the engine is given a list of the size the
route produces, Page B lays out at most 15 + 3 columns. -/
theorem route_caps_custom_fields (fields : Option String) (cfs : List CustomField)
    (h : cfs.length = (routeFieldIds fields).length) :
    (routeFieldIds fields).length ≤ 3 ∧ pageBTotalCols cfs ≤ numFixedCols + 3 := by
  have hlen : (routeFieldIds fields).length ≤ 3 := by
    match fields with
    | none => simp [routeFieldIds]
    | some s =>
      simp only [routeFieldIds, List.length_take]
      exact min_le_left _ _
  refine ⟨hlen, ?_⟩
  rw [pageBTotalCols]
  omega

/-- Witness for C6 amended: a query naming five field ids still yields at
most three, and an engine built on a matching three-field list lays out at
most 18 columns. -/
theorem route_caps_custom_fields_witness :
    (routeFieldIds (some "1,2,3,4,5")).length ≤ 3 ∧
    pageBTotalCols [cfA, cfB, cfC] ≤ numFixedCols + 3 :=
  route_caps_custom_fields (some "1,2,3,4,5") [cfA, cfB, cfC] rfl

/-- Claim C2: folding the accumulation chunk-by-chunk over any partition of
the flight list into consecutive ordered chunks, from any starting snapshot,
equals a single accumulation call over the whole list; with the all-zero
snapshot this is the spread-by-spread fold of the generator. -/
theorem calculateTotals_chunked (customFields : List CustomField)
    (chunks : List (List FlightRecord)) (flights : List FlightRecord)
    (previous : CategoryTotals) (hpart : chunks.flatten = flights) :
    calculateTotals flights previous customFields =
      chunks.foldl (fun t c => calculateTotals c t customFields) previous := by
  subst hpart
  induction chunks generalizing previous with
  | nil => rfl
  | cons c rest ih =>
    rw [show (c :: rest).flatten = c ++ rest.flatten from rfl, List.foldl_cons,
      calculateTotals_append]
    exact ih _

/-- Witness for C2: a two-flight list accumulated once equals the fold over
its partition into two singleton chunks, from the all-zero snapshot. -/
theorem calculateTotals_chunked_witness :
    calculateTotals [sampleFlight, sampleMultiFlight] initializeTotals [] =
      [[sampleFlight], [sampleMultiFlight]].foldl
        (fun t c => calculateTotals c t []) initializeTotals :=
  calculateTotals_chunked [] [[sampleFlight], [sampleMultiFlight]]
    [sampleFlight, sampleMultiFlight] initializeTotals rfl

theorem generateLoop_length (customFields : List CustomField)
    (flights : List FlightRecord) :
    ∀ (rem spreadIndex : Nat) (running : CategoryTotals),
      (generateLoop customFields flights spreadIndex rem running).length = rem := by
  intro rem
  induction rem with
  | zero => intro i r; rfl
  | succ n ih => intro i r; simp [generateLoop, ih]

theorem generateLoop_get? (customFields : List CustomField)
    (flights : List FlightRecord) :
    ∀ (rem spreadIndex j : Nat) (running : CategoryTotals), j < rem →
      ∃ sr, (generateLoop customFields flights spreadIndex rem running).get? j = some sr ∧
        sr.spreadFlights =
          (flights.drop ((spreadIndex + j) * rowsPerSpread)).take rowsPerSpread ∧
        sr.broughtForward =
          calculateTotals
            ((flights.drop (spreadIndex * rowsPerSpread)).take (j * rowsPerSpread))
            running customFields ∧
        sr.pageNum = spreadIndex + j + 1 := by
  intro rem
  induction rem with
  | zero => intro i j r hj; exact absurd hj (Nat.not_lt_zero j)
  | succ n ih =>
    intro i j r hj
    match j with
    | 0 =>
      refine ⟨_, rfl, ?_, ?_, ?_⟩
      · show ((flights.drop (i * rowsPerSpread)).take rowsPerSpread) = _
        rw [Nat.add_zero]
      · show r = _
        rw [Nat.zero_mul, List.take_zero, calculateTotals_nil]
      · show i + 1 = i + 0 + 1
        rw [Nat.add_zero]
    | j' + 1 =>
      have hj' : j' < n := by omega
      obtain ⟨sr, hget, hsf, hbf, hpn⟩ := ih (i + 1) j'
        (calculateTotals ((flights.drop (i * rowsPerSpread)).take rowsPerSpread)
          r customFields) hj'
      refine ⟨sr, ?_, ?_, ?_, ?_⟩
      · exact hget
      · rw [hsf, show i + 1 + j' = i + (j' + 1) from by omega]
      · rw [hbf, ← calculateTotals_append]
        congr 1
        rw [show (j' + 1) * rowsPerSpread = rowsPerSpread + j' * rowsPerSpread by ring,
          List.take_add, List.drop_drop]
        congr 2
        ring_nf
      · rw [hpn]
        omega

/-- Claim C1: for a non-empty flight list, generate produces
ceil(length / 24) spreads; the spread at 0-based index j receives exactly
the slice of flights from index 24 j of length at most 24, its
brought-forward totals (handed to both page engines) are the accumulation of
the first 24 j flights onto the all-zero start, the first spread is brought
forward all-zero, and each next spread's brought-forward totals are the
previous spread's flights accumulated onto the previous brought-forward
snapshot. -/
theorem generate_pagination (flights : List FlightRecord)
    (customFields : List CustomField) (hne : flights ≠ []) :
    (generate flights customFields).length = (flights.length + 24 - 1) / 24 ∧
    (∀ j, j < totalSpreads flights →
      ∃ sr, (generate flights customFields).get? j = some sr ∧
        sr.spreadFlights = (flights.drop (j * 24)).take 24 ∧
        sr.broughtForward =
          calculateTotals (flights.take (j * 24)) initializeTotals customFields) ∧
    (∃ sr0, (generate flights customFields).get? 0 = some sr0 ∧
      sr0.broughtForward = initializeTotals) ∧
    (∀ j sr sr1, (generate flights customFields).get? j = some sr →
      (generate flights customFields).get? (j + 1) = some sr1 →
      sr1.broughtForward =
        calculateTotals sr.spreadFlights sr.broughtForward customFields) := by
  have hlen0 : ¬flights.length = 0 := by
    simpa [List.length_eq_zero] using hne
  have hgen : generate flights customFields =
      generateLoop customFields flights 0 (totalSpreads flights) initializeTotals := by
    rw [generate, if_neg hlen0]
  have hspreads : ∀ j, j < totalSpreads flights →
      ∃ sr, (generate flights customFields).get? j = some sr ∧
        sr.spreadFlights = (flights.drop (j * 24)).take 24 ∧
        sr.broughtForward =
          calculateTotals (flights.take (j * 24)) initializeTotals customFields := by
    intro j hj
    obtain ⟨sr, hget, hsf, hbf, _⟩ :=
      generateLoop_get? customFields flights (totalSpreads flights) 0 j
        initializeTotals hj
    refine ⟨sr, by rw [hgen]; exact hget, ?_, ?_⟩
    · rw [hsf, Nat.zero_add]
      rfl
    · rw [hbf]
      congr 1
  have hpos : 0 < totalSpreads flights := by
    rw [totalSpreads, rowsPerSpread]
    omega
  refine ⟨?_, hspreads, ?_, ?_⟩
  · rw [hgen, generateLoop_length]
    rw [totalSpreads, rowsPerSpread]
  · obtain ⟨sr0, hget, _, hbf⟩ := hspreads 0 hpos
    exact ⟨sr0, hget, by rw [hbf]; rfl⟩
  · intro j sr sr1 hj hj1
    have hj1lt : j + 1 < totalSpreads flights := by
      have := List.get?_eq_some.mp hj1
      obtain ⟨hlt, -⟩ := this
      rw [hgen, generateLoop_length] at hlt
      exact hlt
    have hjlt : j < totalSpreads flights := by omega
    obtain ⟨srA, hgetA, hsfA, hbfA⟩ := hspreads j hjlt
    obtain ⟨srB, hgetB, hsfB, hbfB⟩ := hspreads (j + 1) hj1lt
    have heqA : sr = srA := by
      have := hj.symm.trans hgetA
      exact Option.some.inj this.symm |>.symm
    have heqB : sr1 = srB := by
      have := hj1.symm.trans hgetB
      exact Option.some.inj this.symm |>.symm
    subst heqA
    subst heqB
    rw [hbfB, hsfA, hbfA, ← calculateTotals_append]
    congr 1
    rw [show (j + 1) * 24 = j * 24 + 24 by ring, List.take_add]

/-- Witness for C1 at a concrete one-flight list. -/
theorem generate_pagination_witness :
    (generate [sampleFlight] []).length =
      (([sampleFlight] : List FlightRecord).length + 24 - 1) / 24 :=
  (generate_pagination [sampleFlight] [] (by simp)).1

end PilotsLogbook
